import Mathlib

/-!
Verification of the Stimula Odoo REST controller
(`src/stimula_odoo/controllers/rest.py`).

The development shallowly embeds the request-admission pipeline of the
controller: the `exception_handler`, `authentication_handler` and
`connection_handler` decorators, the `post_table` handler, and the
per-tenant secret resolution (`get_secret_key`, `get_token_lifetime`,
`get_or_set_param`).  Stateful Python code becomes explicit state passing
over an event trace; fallible code returns `Except`.
-/

deriving instance DecidableEq for Except

namespace StimulaOdoo

/-! ## Exception model

The controller distinguishes exceptions only through `isinstance` checks
against `odoo.exceptions.AccessDenied` and `jwt.InvalidSignatureError`
(rest.py:65) and through `type(e).__name__` (rest.py:60).  We embed each
exception class that can reach the handler as a kind.  None of these
classes is a subclass of another, so `isinstance` is kind equality.  In
particular `ExpiredSignatureError` (PyJWT's expiry failure) is not a
subclass of `InvalidSignatureError`: in PyJWT, `InvalidSignatureError`
extends `DecodeError` while `ExpiredSignatureError` extends
`InvalidTokenError` directly; the spec likewise keeps them apart
("must fail validate with TokenExpired, never InvalidToken"). -/

inductive ExnKind where
  | accessDenied
  | invalidSignatureError
  | expiredSignatureError
  | assertionError
  | keyError
  | attributeError
  | valueError
  | nameError
  | typeError
  | exception
  deriving DecidableEq, Repr

/-- Python's `type(e).__name__` for each embedded exception kind. -/
def ExnKind.name : ExnKind → String
  | .accessDenied => "AccessDenied"
  | .invalidSignatureError => "InvalidSignatureError"
  | .expiredSignatureError => "ExpiredSignatureError"
  | .assertionError => "AssertionError"
  | .keyError => "KeyError"
  | .attributeError => "AttributeError"
  | .valueError => "ValueError"
  | .nameError => "NameError"
  | .typeError => "TypeError"
  | .exception => "Exception"

/-- A Python exception value: kind, message, and (for `raise ... from`)
an explicit cause.  The inductive shape covers the finite cause chains a
Python program builds with `raise from`; arbitrary (possibly cyclic)
`__cause__` heaps are modelled separately for the root-cause loop below. -/
inductive PyExn where
  | base (kind : ExnKind) (msg : String)
  | withCause (kind : ExnKind) (msg : String) (cause : PyExn)
  deriving DecidableEq, Repr

def PyExn.kind : PyExn → ExnKind
  | .base k _ => k
  | .withCause k _ _ => k

def PyExn.msg : PyExn → String
  | .base _ m => m
  | .withCause _ m _ => m

/-- `isinstance(e, AccessDenied)` (rest.py:65). -/
def isAccessDenied (e : PyExn) : Bool := e.kind = ExnKind.accessDenied

/-- `isinstance(e, InvalidSignatureError)` (rest.py:65). -/
def isInvalidSignatureError (e : PyExn) : Bool := e.kind = ExnKind.invalidSignatureError

/-- The root-cause loop of rest.py:53-54,

`while (e.__cause__ is not None) and (e.__cause__ is not e): e = e.__cause__`,

on the finite cause chains representable inductively.  The `c = e` test
mirrors the `is not e` guard (structurally it can never fire here, which
is exactly why the cyclic case needs the separate fuel model below). -/
def rootCause : PyExn → PyExn
  | PyExn.base k m => PyExn.base k m
  | PyExn.withCause k m c =>
    if c = PyExn.withCause k m c then PyExn.withCause k m c else rootCause c

/-! ## Python string helpers, embedded over character lists -/

/-- Auxiliary for `s.split(chr(10), 1)[0]`: the characters before the
first newline. -/
def splitHeadAux : List Char → List Char
  | [] => []
  | c :: cs => if c = '\n' then [] else c :: splitHeadAux cs

/-- Python `s.split(chr(10), 1)[0]` — used at rest.py:59 for the short
message and at rest.py:293 for the default header. -/
def pySplitHead (s : String) : String := String.mk (splitHeadAux s.data)

/-- The first line of a string as the spec words it: the text up to the
first newline. -/
def specFirstLine (s : String) : String :=
  String.mk (s.data.takeWhile (fun c => c != '\n'))

theorem splitHeadAux_eq_takeWhile (l : List Char) :
    splitHeadAux l = l.takeWhile (fun c => c != '\n') := by
  induction l with
  | nil => rfl
  | cons c cs ih =>
    by_cases h : c = '\n'
    · subst h
      simp [splitHeadAux, List.takeWhile_cons]
    · simp [splitHeadAux, List.takeWhile_cons, h, ih]

theorem pySplitHead_eq_specFirstLine (s : String) :
    pySplitHead s = specFirstLine s := by
  unfold pySplitHead specFirstLine
  rw [splitHeadAux_eq_takeWhile]

/-- Python `s.capitalize()`: first character upper-cased, the rest
lower-cased. -/
def pyCapitalize (s : String) : String :=
  match s.data with
  | [] => ""
  | c :: cs => String.mk (c.toUpper :: cs.map Char.toLower)

/-- Auxiliary decimal parser over characters (accumulator form). -/
def digitsToNatAux : Nat → List Char → Option Nat
  | acc, [] => some acc
  | acc, c :: cs =>
    if c.isDigit then digitsToNatAux (acc * 10 + (c.toNat - 48)) cs else none

/-- A non-empty all-digit string parsed as a natural number. -/
def pyParseNat (s : String) : Option Nat :=
  match s.data with
  | [] => none
  | l => digitsToNatAux 0 l

/-- Python `bool(eval(s.capitalize()))` as used for the boolean query
flags (rest.py:282-286), modelled for the literals the route accepts:
`True`, `False` and integer literals; any other expression raises (a
`NameError` for undefined names stands in for the other `eval`
failures). -/
def pyEvalBool (s : String) : Except PyExn Bool :=
  let c := pyCapitalize s
  if c = "True" then Except.ok true
  else if c = "False" then Except.ok false
  else
    match pyParseNat c with
    | some n => Except.ok (n != 0)
    | none => Except.error (PyExn.base ExnKind.nameError ("name " ++ c ++ " is not defined"))

/-- Python `int(s)` on a decimal literal (rest.py:280). -/
def pyInt (s : String) : Except PyExn Nat :=
  match pyParseNat s with
  | some n => Except.ok n
  | none => Except.error (PyExn.base ExnKind.valueError ("invalid literal for int: " ++ s))

/-- Python truthiness of an optional string (`if not config_params.get_param(key)`,
`if not header`): `None` and the empty string are falsy. -/
def truthyOptStr : Option String → Bool
  | none => false
  | some s => s != ""

/-- Python `s.startswith(pre)` over character lists (first argument is
the candidate pattern). -/
def listStartsWith : List Char → List Char → Bool
  | [], _ => true
  | _ :: _, [] => false
  | p :: ps, c :: cs => p == c && listStartsWith ps cs

def pyStartsWith (s pat : String) : Bool := listStartsWith pat.data s.data

/-- Python `s[n:]` by characters. -/
def pyDropChars (s : String) (n : Nat) : String := String.mk (s.data.drop n)

/-- Python `sep.join(xs)`. -/
def joinWith (sep : String) : List String → String
  | [] => ""
  | [x] => x
  | x :: xs => x ++ sep ++ joinWith sep xs

/-! ## The middleware pipeline

Requests are HTTP requests with headers and a body; side effects of a
request (token validation, opening the registry, opening/closing the
cursor, running the handler, calling the mapping engine) are recorded on
an event trace; `cnx_context` (the `stimula.service.context` thread-local
written by `authentication_handler` and read by `connection_handler`) is
the rest of the state. -/

inductive Ev where
  | validateToken (token : String)
  | openRegistry (db : String)
  | openCursor
  | closeCursor
  | handlerRun
  | engineGetTables (q : Option String)
  | engineCall (op : String) (header : String) (body : String)
  deriving DecidableEq, Repr

structure St where
  trace : List Ev
  database : Option String
  uid : Option Nat
  username : Option String
  deriving DecidableEq, Repr

def St.init : St := { trace := [], database := none, uid := none, username := none }

/-- A Python callable in the pipeline: it updates the state and either
returns a value or raises. -/
def M (α : Type) := St → St × Except PyExn α

structure Req where
  headers : List (String × String)
  body : String

/-- `request.httprequest.headers[key]` (rest.py:76): a mapping subscript,
which raises `KeyError` when the key is absent (werkzeug's
`EnvironHeaders.__getitem__` reads the WSGI environ dict). -/
def headersGet (hs : List (String × String)) (key : String) : Except PyExn String :=
  match hs.lookup key with
  | some v => Except.ok v
  | none => Except.error (PyExn.base ExnKind.keyError key)

/-- `traceback.format_exc()` (rest.py:61): its content is opaque to every
claim; embedded as a fixed rendering of the exception being handled. -/
def formatExc (e : PyExn) : String := "Traceback (most recent call last): " ++ e.msg

structure ErrorObject where
  msg : String
  short : String
  type_ : String
  trace : String
  deriving DecidableEq, Repr

inductive RespBody where
  | errorObj (o : ErrorObject)
  | text (s : String)
  | jsonTables (ts : List String)
  | csv (s : String)
  | jsonStr (s : String)
  deriving DecidableEq, Repr

structure Response where
  status : Nat
  body : RespBody
  deriving DecidableEq, Repr

/-- The `exception_handler` decorator (rest.py:45-69): call the wrapped
function; on any exception find the root cause, build the error object
`(msg, short, type, trace)` and answer `401` when the root cause is an
`AccessDenied` or `InvalidSignatureError`, `400` otherwise. -/
def exception_handler (f : M Response) : M Response := fun s =>
  match f s with
  | (s1, Except.ok r) => (s1, Except.ok r)
  | (s1, Except.error e0) =>
    let e := rootCause e0
    let obj : ErrorObject :=
      { msg := e.msg
        short := pySplitHead e.msg
        type_ := e.kind.name
        trace := formatExc e0 }
    let error_status := if isAccessDenied e || isInvalidSignatureError e then 401 else 400
    (s1, Except.ok { status := error_status, body := RespBody.errorObj obj })

/-- The `authentication_handler` decorator (rest.py:72-97): read the
`Authorization` header (a subscript that raises `KeyError` when absent),
guard against an empty value and a non-`Bearer` scheme, extract the
token, validate it (the `OdooAuth.validate_token` of the external stimula
library is the parameter `validate`), store the identity on
`cnx_context`, then call the wrapped function. -/
def authentication_handler (validate : String → Except PyExn (String × Nat × String))
    (req : Req) (f : M Response) : M Response := fun s =>
  match headersGet req.headers "Authorization" with
  | Except.error e => (s, Except.error e)
  | Except.ok ah =>
    if ah = "" then
      (s, Except.ok { status := 401, body := RespBody.text "Authorization header missing" })
    else if ¬ pyStartsWith ah "Bearer " then
      (s, Except.ok { status := 401, body := RespBody.text "Invalid Authorization header format" })
    else
      let token := pyDropChars ah 7
      let s1 := { s with trace := s.trace ++ [Ev.validateToken token] }
      match validate token with
      | Except.error e => (s1, Except.error e)
      | Except.ok (database, uid, username) =>
        let s2 := { s1 with database := some database, uid := some uid, username := some username }
        f s2

/-- The `connection_handler` decorator (rest.py:100-117): read the
database from `cnx_context`, open the registry and a cursor, stash them
on `cnx_context`, and call the wrapped function.  Note there is no
`with` block and no `try/finally`: the cursor is never closed here, so no
`closeCursor` event is ever emitted. -/
def connection_handler (f : M Response) : M Response := fun s =>
  match s.database with
  | none => (s, Except.error (PyExn.base ExnKind.attributeError "cnx_context has no attribute database"))
  | some db =>
    let s1 := { s with trace := s.trace ++ [Ev.openRegistry db, Ev.openCursor] }
    f s1

/-- A bearer route as decorated in rest.py (e.g. lines 199-202):
`@exception_handler @authentication_handler @connection_handler handler`,
so the exception stage is outermost, then authentication, then the
connection (context) stage around the handler. -/
def bearerRoute (validate : String → Except PyExn (String × Nat × String))
    (req : Req) (handler : M Response) : M Response :=
  exception_handler (authentication_handler validate req (connection_handler handler))

/-- The `get_tables` handler body (rest.py:203-209). -/
def get_tables_handler (engine_get_tables : Option String → List String)
    (qp : Option String) : M Response := fun s =>
  let s1 := { s with trace := s.trace ++ [Ev.handlerRun, Ev.engineGetTables qp] }
  (s1, Except.ok { status := 200, body := RespBody.jsonTables (engine_get_tables qp) })

/-! ## The POST /tables/{name} handler -/

/-- The mapping-engine collaborator (`stimula.service.db.DB`), opaque:
each operation is an arbitrary pure function of the arguments the handler
passes. -/
structure Engine where
  post_table_get_diff :
    String → String → Option String → String → Nat → Bool → Bool → Bool → Bool → Bool → List String
  post_table_get_sql :
    String → String → Option String → String → Nat → Bool → Bool → Bool → Bool → Bool → String
  post_table_get_summary :
    String → String → Option String → String → Nat → Bool → Bool → Bool → Bool → Bool → String
  post_table_get_full_report :
    String → String → Option String → String → Nat → Bool → Bool → Bool → Bool → Bool →
      Option String → String

/-- The query parameters of `post_table` (rest.py:272-287), each as the
optional raw string Odoo hands the handler. -/
structure PostQuery where
  h : Option String
  q : Option String
  style : Option String
  skiprows : Option String
  insert : Option String
  update : Option String
  delete : Option String
  execute : Option String
  commit : Option String
  context : Option String

/-- The body of `post_table` (rest.py:272-331) after the decorators, as a
pure computation: parse `skiprows`, assert the style whitelist
`['diff', 'sql', 'result', 'full']`, eval the five boolean flags, assert a
non-empty body, default the header to the first line of the body, then
dispatch on the style — where the branches test `'diff'`, `'sql'`,
`'summary'` and `'full'` and anything else reaches the final
`raise Exception(...)`.  The returned event list records the engine calls
made. -/
def post_table_core (eng : Engine) (table_name : String) (q : PostQuery) (body : String) :
    Except PyExn (List Ev × Response) :=
  Except.bind (match q.skiprows with
    | none => Except.ok 0
    | some s => pyInt s) (fun skiprows =>
  if q.style = some "diff" ∨ q.style = some "sql" ∨ q.style = some "result" ∨ q.style = some "full" then
    Except.bind (pyEvalBool ((q.insert).getD "false")) (fun insert =>
    Except.bind (pyEvalBool ((q.update).getD "false")) (fun update =>
    Except.bind (pyEvalBool ((q.delete).getD "false")) (fun delete =>
    Except.bind (pyEvalBool ((q.execute).getD "false")) (fun execute =>
    Except.bind (pyEvalBool ((q.commit).getD "false")) (fun commit =>
    let context := q.context
    if body = "" then
      Except.error (PyExn.base ExnKind.assertionError "Missing body content")
    else
      let header := match q.h with
        | none => pySplitHead body
        | some h => if h = "" then pySplitHead body else h
      if q.style = some "diff" then
        Except.ok ([Ev.engineCall "post_table_get_diff" header body],
          { status := 200
            body := RespBody.csv (joinWith "\n\n"
              (eng.post_table_get_diff table_name header q.q body skiprows insert update delete execute commit)) })
      else if q.style = some "sql" then
        Except.ok ([Ev.engineCall "post_table_get_sql" header body],
          { status := 200
            body := RespBody.csv
              (eng.post_table_get_sql table_name header q.q body skiprows insert update delete execute commit) })
      else if q.style = some "summary" then
        Except.ok ([Ev.engineCall "post_table_get_summary" header body],
          { status := 200
            body := RespBody.text
              (eng.post_table_get_summary table_name header q.q body skiprows insert update delete execute commit) })
      else if q.style = some "full" then
        Except.ok ([Ev.engineCall "post_table_get_full_report" header body],
          { status := 200
            body := RespBody.jsonStr
              (eng.post_table_get_full_report table_name header q.q body skiprows insert update delete execute commit context) })
      else
        Except.error (PyExn.base ExnKind.exception
          ("Invalid style parameter: " ++ (q.style).getD "None")))))))
  else
    Except.error (PyExn.base ExnKind.assertionError "style must be one of diff, sql, result or full"))

/-- `post_table` as the terminal stage of its route: run the body on the
request, recording the handler entry and the engine calls on the trace. -/
def post_table_handler (eng : Engine) (table_name : String) (q : PostQuery) (req : Req) :
    M Response := fun s =>
  let s0 := { s with trace := s.trace ++ [Ev.handlerRun] }
  match post_table_core eng table_name q req.body with
  | Except.error e => (s0, Except.error e)
  | Except.ok (evs, r) => ({ s0 with trace := s0.trace ++ evs }, Except.ok r)

/-! ## Secret resolution (rest.py:134-158)

The `ir.config_parameter` store of one tenant database is an association
list from keys to values; `get_param` is lookup (falsy when absent) and
`set_param` stores the value. -/

abbrev Store := List (String × String)

def getParam (store : Store) (key : String) : Option String :=
  List.lookup key store

def setParam (store : Store) (key value : String) : Store :=
  (key, value) :: List.filter (fun p => p.1 != key) store

/-- `get_or_set_param` (rest.py:146-158): if `get_param(key)` is falsy,
generate the default and `set_param` it; return `get_param(key)` of the
resulting store. -/
def get_or_set_param (store : Store) (key : String) (default_generator : Unit → String) :
    Option String × Store :=
  if truthyOptStr (getParam store key) then (getParam store key, store)
  else
    let default := default_generator ()
    let store1 := setParam store key default
    (getParam store1 key, store1)

def ascii_letters : List Char :=
  "abcdefghijklmnopqrstuvwxyzABCDEFGHIJKLMNOPQRSTUVWXYZ".data

def string_digits : List Char := "0123456789".data

/-- `string.ascii_letters + string.digits`, the alphabet of rest.py:137. -/
def secretAlphabet : List Char := ascii_letters ++ string_digits

/-- `''.join(random.choices(string.ascii_letters + string.digits, k=k))`
(rest.py:137): the random draws are abstracted as a function `picks`
giving each draw's index into the 62-character alphabet. -/
def randomChoices (picks : Nat → Nat) (k : Nat) : String :=
  String.mk ((List.range k).map (fun i => secretAlphabet.getD (picks i % 62) 'a'))

/-- `get_secret_key` (rest.py:134-138). -/
def get_secret_key (picks : Nat → Nat) (store : Store) : Option String × Store :=
  get_or_set_param store "stimula_odoo.secret_key" (fun _ => randomChoices picks 16)

/-- `get_token_lifetime` (rest.py:140-144): the default generator yields
`60 * 60 * 24`; `set_param` stores its string form and the result is fed
to `int(...)` (which raises `TypeError` on `None`). -/
def get_token_lifetime (store : Store) : Except PyExn Nat × Store :=
  let r := get_or_set_param store "stimula_odoo.token_lifetime" (fun _ => toString (60 * 60 * 24))
  (match r.1 with
   | none => Except.error (PyExn.base ExnKind.typeError "int() argument must not be None")
   | some s => pyInt s, r.2)

/-! ## The root-cause loop on arbitrary cause heaps (for claim C5)

Python `__cause__` pointers can form cycles of any length.  Exceptions
become numbered nodes and `causeOf n` the `__cause__` of node `n`; the
loop of rest.py:53-54 is run with explicit fuel, `none` meaning the loop
is still running after that many iterations. -/

def findRootCauseFuel (causeOf : Nat → Option Nat) : Nat → Nat → Option Nat
  | 0, _ => none
  | fuel + 1, e =>
    match causeOf e with
    | none => some e
    | some c => if c = e then some e else findRootCauseFuel causeOf fuel c

/-- The while loop terminates on exception `e`. -/
def loopTerminates (causeOf : Nat → Option Nat) (e : Nat) : Prop :=
  ∃ fuel r, findRootCauseFuel causeOf fuel e = some r

/-- An exception at which the loop condition is false: no cause, or a
self-referential cause. -/
def isOrigin (causeOf : Nat → Option Nat) (e : Nat) : Prop :=
  causeOf e = none ∨ causeOf e = some e

/-- One iteration of the loop body (the identity at an origin). -/
def causeStep (causeOf : Nat → Option Nat) (e : Nat) : Nat :=
  match causeOf e with
  | none => e
  | some c => if c = e then e else c

def causeIter (causeOf : Nat → Option Nat) : Nat → Nat → Nat
  | 0, e => e
  | k + 1, e => causeIter causeOf k (causeStep causeOf e)

/-- A two-exception `__cause__` cycle: exception 0 caused by exception 1,
which is caused by exception 0. -/
def twoCycleCause : Nat → Option Nat := fun n =>
  if n = 0 then some 1 else if n = 1 then some 0 else none

/-! ## Concrete fixtures and projections used by the theorems -/

/-- A request carrying a well-formed bearer header. -/
def reqBearerT0 : Req := { headers := [("Authorization", "Bearer t0")], body := "" }

/-- A request with no `Authorization` header at all. -/
def reqNoAuth : Req := { headers := [], body := "" }

/-- The exception PyJWT raises when `exp` has passed. -/
def expiredExn : PyExn := PyExn.base ExnKind.expiredSignatureError "Signature has expired"

/-- A trivial route handler that just records its run and answers 200. -/
def dummyHandler : M Response := fun s =>
  ({ s with trace := s.trace ++ [Ev.handlerRun] },
   Except.ok { status := 200, body := RespBody.text "ok" })

/-- The HTTP status of a pipeline outcome, when it produced a response. -/
def respStatusOf (x : St × Except PyExn Response) : Option Nat :=
  match x.2 with
  | Except.ok r => some r.status
  | Except.error _ => none

/-- The `type` field of the error object of a pipeline outcome, when the
response body is an error object. -/
def respErrTypeOf (x : St × Except PyExn Response) : Option String :=
  match x.2 with
  | Except.ok { status := _, body := RespBody.errorObj o } => some o.type_
  | _ => none

/-- Number of engine calls recorded on a trace. -/
def countEngineCalls (tr : List Ev) : Nat :=
  (tr.filter (fun e => match e with
    | Ev.engineCall _ _ _ => true
    | Ev.engineGetTables _ => true
    | _ => false)).length

/-- A concrete mapping engine returning fixed reports. -/
def constEngine : Engine :=
  { post_table_get_diff := fun _ _ _ _ _ _ _ _ _ _ => ["frame1", "frame2", "frame3"]
    post_table_get_sql := fun _ _ _ _ _ _ _ _ _ _ => "sql frame"
    post_table_get_summary := fun _ _ _ _ _ _ _ _ _ _ => "summary text"
    post_table_get_full_report := fun _ _ _ _ _ _ _ _ _ _ _ => "full report" }

/-- A `post_table` query string with every parameter left at its default
except the style. -/
def queryWithStyle (st : String) : PostQuery :=
  { h := none, q := none, style := some st, skiprows := none, insert := none,
    update := none, delete := none, execute := none, commit := none, context := none }

/-- The bearer request with which `post_table` is exercised: a valid
bearer header and a two-line CSV body. -/
def reqPostBody : Req := { headers := [("Authorization", "Bearer t0")], body := "a,b\n1,2" }

/-- A validation function that accepts every token for a fixed tenant. -/
def validateOkFixed : String → Except PyExn (String × Nat × String) :=
  fun _ => Except.ok ("tenant1", 2, "alice")

/-! ## Helper lemmas -/

theorem getD_mem_or (l : List Char) (n : Nat) (d : Char) :
    l.getD n d ∈ l ∨ l.getD n d = d := by
  induction l generalizing n with
  | nil => right; simp [List.getD]
  | cons x xs ih =>
    cases n with
    | zero => left; simp
    | succ m =>
      rcases ih m with h | h
      · left
        rw [List.getD_cons_succ]
        exact List.mem_cons_of_mem _ h
      · right
        rw [List.getD_cons_succ]
        exact h

theorem secretAlphabet_alphanum : ∀ c ∈ secretAlphabet, c.isAlphanum = true := by decide

theorem getParam_setParam_self (store : Store) (key v : String) :
    getParam (setParam store key v) key = some v := by
  simp [getParam, setParam, List.lookup]

/-- On the two-exception cycle the loop is still running after any
number of iterations, from either node. -/
theorem findRootCauseFuel_twoCycle (fuel : Nat) :
    findRootCauseFuel twoCycleCause fuel 0 = none ∧
    findRootCauseFuel twoCycleCause fuel 1 = none := by
  induction fuel with
  | zero => exact ⟨rfl, rfl⟩
  | succ n ih =>
    constructor
    · show findRootCauseFuel twoCycleCause (n + 1) 0 = none
      simp only [findRootCauseFuel, twoCycleCause]
      simpa using ih.2
    · show findRootCauseFuel twoCycleCause (n + 1) 1 = none
      simp only [findRootCauseFuel, twoCycleCause]
      simpa using ih.1

/-- When the loop halts, the exception it halted at is an origin (no
cause, or a self-referential cause) and is reached from the start by
iterating the loop body. -/
theorem findRootCauseFuel_isOrigin (causeOf : Nat → Option Nat) :
    ∀ fuel e r, findRootCauseFuel causeOf fuel e = some r →
      isOrigin causeOf r ∧ ∃ k, causeIter causeOf k e = r := by
  intro fuel
  induction fuel with
  | zero =>
    intro e r h
    simp [findRootCauseFuel] at h
  | succ n ih =>
    intro e r h
    unfold findRootCauseFuel at h
    cases hc : causeOf e with
    | none =>
      simp only [hc] at h
      cases h
      exact ⟨Or.inl hc, 0, rfl⟩
    | some c =>
      simp only [hc] at h
      by_cases hce : c = e
      · rw [if_pos hce] at h
        cases h
        rw [hce] at hc
        exact ⟨Or.inr hc, 0, rfl⟩
      · rw [if_neg hce] at h
        obtain ⟨ho, k, hk⟩ := ih c r h
        refine ⟨ho, k + 1, ?_⟩
        show causeIter causeOf k (causeStep causeOf e) = r
        have hstep : causeStep causeOf e = c := by simp [causeStep, hc, hce]
        rw [hstep]
        exact hk

/-- When some iterate of the loop body reaches an origin, the loop
halts. -/
theorem findRootCauseFuel_of_isOrigin (causeOf : Nat → Option Nat) :
    ∀ k e, isOrigin causeOf (causeIter causeOf k e) → loopTerminates causeOf e := by
  intro k
  induction k with
  | zero =>
    intro e h
    rcases h with h | h
    · have h' : causeOf e = none := h
      exact ⟨1, e, by simp [findRootCauseFuel, h']⟩
    · have h' : causeOf e = some e := h
      exact ⟨1, e, by simp [findRootCauseFuel, h']⟩
  | succ n ih =>
    intro e h
    obtain ⟨fuel, r, hr⟩ := ih (causeStep causeOf e) h
    cases hc : causeOf e with
    | none => exact ⟨1, e, by simp [findRootCauseFuel, hc]⟩
    | some c =>
      by_cases hce : c = e
      · exact ⟨1, e, by simp [findRootCauseFuel, hc, hce]⟩
      · refine ⟨fuel + 1, r, ?_⟩
        have hstep : causeStep causeOf e = c := by simp [causeStep, hc, hce]
        rw [hstep] at hr
        simp only [findRootCauseFuel, hc, if_neg hce]
        exact hr

/-- A handler that records its run and then returns or raises as
directed — both exit paths of the terminal stage. -/
def traceHandler (hres : Except PyExn Response) : M Response :=
  fun s => ({ s with trace := s.trace ++ [Ev.handlerRun] }, hres)

/-! ## Claims -/

/-- C1 counterexample: a bearer request whose token validation fails
with the expiry exception is answered with HTTP 400, not 401:
`exception_handler` grants 401 only to `AccessDenied` and
`InvalidSignatureError`, and the expiry exception is neither. -/
theorem c1_expiry_counterexample :
    respStatusOf (bearerRoute (fun _ => Except.error expiredExn) reqBearerT0 dummyHandler St.init)
      = some 400 ∧
    respStatusOf (bearerRoute (fun _ => Except.error expiredExn) reqBearerT0 dummyHandler St.init)
      ≠ some 401 :=
  ⟨by decide, by decide⟩

/-- C1 amended: for every bearer request whose token validation raises,
the Exception Stage maps the failure to 401 exactly when the root cause
is an `AccessDenied` or `InvalidSignatureError`, and to 400 otherwise —
so an expiry failure (whose exception is neither, last two conjuncts)
yields 400, not 401. -/
theorem c1_expiry_amended (e : PyExn) (handler : M Response) (s : St) :
    (bearerRoute (fun _ => Except.error e) reqBearerT0 handler s).2 =
      Except.ok
        { status :=
            if isAccessDenied (rootCause e) || isInvalidSignatureError (rootCause e) then 401 else 400
          body := RespBody.errorObj
            { msg := (rootCause e).msg
              short := pySplitHead (rootCause e).msg
              type_ := (rootCause e).kind.name
              trace := formatExc e } } ∧
    isAccessDenied (rootCause expiredExn) = false ∧
    isInvalidSignatureError (rootCause expiredExn) = false :=
  ⟨rfl, by decide, by decide⟩

/-- C2 evaluated at its failing input: a bearer request with no
`Authorization` header is answered with HTTP 400 (not 401), because the
header subscript raises `KeyError` before the unreachable
`"Authorization header missing", 401` branch, and `exception_handler`
maps `KeyError` to 400.  The final state equals the initial one, so no
token validation and no tenant-resource access happened. -/
theorem c2_missing_header_evaluated :
    bearerRoute (fun _ => Except.error (PyExn.base ExnKind.accessDenied "Access Denied"))
        reqNoAuth dummyHandler St.init
      = (St.init, Except.ok
          { status := 400
            body := RespBody.errorObj
              { msg := "Authorization"
                short := "Authorization"
                type_ := "KeyError"
                trace := "Traceback (most recent call last): Authorization" } }) := by
  decide

/-- C3 evaluated: on every authenticated bearer request the Context
Stage opens exactly one cursor and the pipeline never closes it — the
close count of the request trace is 0 on both exit paths (handler
returns, handler raises), not the exactly-once release the claim
states. -/
theorem c3_cursor_never_released (hres : Except PyExn Response) :
    List.count Ev.openCursor
        (bearerRoute validateOkFixed reqBearerT0 (traceHandler hres) St.init).1.trace = 1 ∧
    List.count Ev.closeCursor
        (bearerRoute validateOkFixed reqBearerT0 (traceHandler hres) St.init).1.trace = 0 := by
  cases hres with
  | ok r => exact ⟨rfl, rfl⟩
  | error e => exact ⟨rfl, rfl⟩

/-- C4 evaluated: `post_table` rejects `style=summary` with the
`AssertionError` of the whitelist (which lists `result` instead of
`summary`), so the full pipeline answers 400 with no engine call, even
though a summary branch exists below the assert; `style=result` passes
the assert and then hits the final `raise Exception('Invalid style
parameter: result')`. -/
theorem c4_style_summary_rejected :
    post_table_core constEngine "res_partner" (queryWithStyle "summary") "a,b\n1,2"
      = Except.error (PyExn.base ExnKind.assertionError "style must be one of diff, sql, result or full") ∧
    respStatusOf (bearerRoute validateOkFixed reqPostBody
        (post_table_handler constEngine "res_partner" (queryWithStyle "summary") reqPostBody) St.init)
      = some 400 ∧
    respErrTypeOf (bearerRoute validateOkFixed reqPostBody
        (post_table_handler constEngine "res_partner" (queryWithStyle "summary") reqPostBody) St.init)
      = some "AssertionError" ∧
    countEngineCalls ((bearerRoute validateOkFixed reqPostBody
        (post_table_handler constEngine "res_partner" (queryWithStyle "summary") reqPostBody) St.init).1.trace)
      = 0 ∧
    post_table_core constEngine "res_partner" (queryWithStyle "result") "a,b\n1,2"
      = Except.error (PyExn.base ExnKind.exception "Invalid style parameter: result") :=
  ⟨by decide, by decide, by decide, by decide, by decide⟩

/-- C5 counterexample: the root-cause unwinding of rest.py:53-54 does
not terminate on every cause chain.  On a cycle of two exceptions
(exception 0 caused by exception 1 and vice versa) the while loop never
halts, because its guard only detects a self-referential cause, not a
longer cycle. -/
theorem c5_cycle_counterexample : ¬ loopTerminates twoCycleCause 0 := by
  rintro ⟨fuel, r, hr⟩
  rw [(findRootCauseFuel_twoCycle fuel).1] at hr
  cases hr

/-- C5 amended: the root-cause unwinding terminates exactly on the
exceptions from which iterating the cause chain reaches, in finitely many
steps, an exception with no cause or a self-referential cause; whenever
it halts, the exception it selects is such an origin reached from the
start of the chain.  (On a cycle through two or more exceptions it does
not terminate.) -/
theorem c5_root_cause_amended (causeOf : Nat → Option Nat) (e : Nat) :
    (loopTerminates causeOf e ↔ ∃ k, isOrigin causeOf (causeIter causeOf k e)) ∧
    (∀ fuel r, findRootCauseFuel causeOf fuel e = some r →
      isOrigin causeOf r ∧ ∃ k, causeIter causeOf k e = r) := by
  constructor
  · constructor
    · rintro ⟨fuel, r, hr⟩
      obtain ⟨ho, k, hk⟩ := findRootCauseFuel_isOrigin causeOf fuel e r hr
      refine ⟨k, ?_⟩
      rw [hk]
      exact ho
    · rintro ⟨k, hk⟩
      exact findRootCauseFuel_of_isOrigin causeOf k e hk
  · intro fuel r hr
    exact findRootCauseFuel_isOrigin causeOf fuel e r hr

/-- A two-exception linear chain: exception 2 caused by exception 1,
which has no cause. -/
def chainTwoToOne : Nat → Option Nat := fun n => if n = 2 then some 1 else none

/-- C6: on a tenant store holding neither the secret key nor the token
lifetime, secret resolution stores and returns the generated 16-character
alphanumeric secret (16 ≥ 16 as the spec asks) and lifetime resolution
stores `"86400"` and returns 86400, both persisted through `set_param`. -/
theorem c6_fresh_secret_resolution (picks : Nat → Nat) (store : Store)
    (hsk : getParam store "stimula_odoo.secret_key" = none)
    (hlt : getParam store "stimula_odoo.token_lifetime" = none) :
    get_secret_key picks store
      = (some (randomChoices picks 16),
         setParam store "stimula_odoo.secret_key" (randomChoices picks 16)) ∧
    (randomChoices picks 16).length = 16 ∧
    (∀ c ∈ (randomChoices picks 16).data, c.isAlphanum = true) ∧
    getParam (setParam store "stimula_odoo.secret_key" (randomChoices picks 16))
        "stimula_odoo.secret_key"
      = some (randomChoices picks 16) ∧
    get_token_lifetime store
      = (Except.ok 86400, setParam store "stimula_odoo.token_lifetime" "86400") := by
  have hstr : toString (60 * 60 * 24) = "86400" := by decide
  refine ⟨?_, ?_, ?_, getParam_setParam_self store "stimula_odoo.secret_key" _, ?_⟩
  · unfold get_secret_key get_or_set_param
    rw [hsk]
    simp [truthyOptStr, getParam_setParam_self]
  · simp [randomChoices, String.length]
  · intro c hc
    simp only [randomChoices] at hc
    rw [List.mem_map] at hc
    obtain ⟨i, _, hi⟩ := hc
    rcases getD_mem_or secretAlphabet (picks i % 62) 'a' with hm | he
    · exact secretAlphabet_alphanum c (hi ▸ hm)
    · rw [← hi, he]
      decide
  · unfold get_token_lifetime get_or_set_param
    rw [hlt, hstr]
    simp [truthyOptStr, getParam_setParam_self, pyInt, pyParseNat, digitsToNatAux]

/-- C7: once a non-empty value is stored under a key, `get_or_set_param`
returns it unchanged and leaves the store untouched — whatever defaults
the generators would produce — so two successive resolutions return
equal values. -/
theorem c7_idempotent_after_creation (store : Store) (key v : String)
    (gen gen2 : Unit → String) (hv : getParam store key = some v) (hne : v ≠ "") :
    get_or_set_param store key gen = (some v, store) ∧
    (get_or_set_param ((get_or_set_param store key gen).2) key gen2).1
      = (get_or_set_param store key gen).1 := by
  have ht : truthyOptStr (getParam store key) = true := by
    rw [hv]
    simp [truthyOptStr, hne]
  have h1 : get_or_set_param store key gen = (some v, store) := by
    unfold get_or_set_param
    rw [ht, hv]
    simp
  have h2 : get_or_set_param store key gen2 = (some v, store) := by
    unfold get_or_set_param
    rw [ht, hv]
    simp
  refine ⟨h1, ?_⟩
  rw [h1, h2]

/-- C7 witness: on the one-record store for key `k` with value `v0`,
resolution returns `v0` and leaves the store unchanged, twice over. -/
theorem c7_idempotent_after_creation_witness :
    getParam [("k", "v0")] "k" = some "v0" ∧ "v0" ≠ "" ∧
    (get_or_set_param [("k", "v0")] "k" (fun _ => "other") = (some "v0", [("k", "v0")]) ∧
     (get_or_set_param ((get_or_set_param [("k", "v0")] "k" (fun _ => "other")).2) "k"
         (fun _ => "other2")).1
       = (get_or_set_param [("k", "v0")] "k" (fun _ => "other")).1) :=
  ⟨by decide, by decide,
   c7_idempotent_after_creation [("k", "v0")] "k" "v0" (fun _ => "other") (fun _ => "other2")
     (by decide) (by decide)⟩

/-- C6 witness: on the empty store with the identity draw sequence, the
hypotheses hold and resolution persists and returns the concrete secret
`"abcdefghijklmnop"` and the lifetime 86400. -/
theorem c6_fresh_secret_resolution_witness :
    getParam ([] : Store) "stimula_odoo.secret_key" = none ∧
    getParam ([] : Store) "stimula_odoo.token_lifetime" = none ∧
    (get_secret_key (fun i => i) []
       = (some (randomChoices (fun i => i) 16),
          setParam [] "stimula_odoo.secret_key" (randomChoices (fun i => i) 16)) ∧
     (randomChoices (fun i => i) 16).length = 16 ∧
     (∀ c ∈ (randomChoices (fun i => i) 16).data, c.isAlphanum = true) ∧
     getParam (setParam [] "stimula_odoo.secret_key" (randomChoices (fun i => i) 16))
         "stimula_odoo.secret_key"
       = some (randomChoices (fun i => i) 16) ∧
     get_token_lifetime []
       = (Except.ok 86400, setParam [] "stimula_odoo.token_lifetime" "86400")) :=
  ⟨by decide, by decide, c6_fresh_secret_resolution (fun i => i) [] (by decide) (by decide)⟩

/-- C5 witness: on the linear chain 2 → 1 the amended theorem applies,
and with fuel 2 the loop halts at 1, which is an origin reached from 2. -/
theorem c5_root_cause_amended_witness :
    (loopTerminates chainTwoToOne 2 ↔ ∃ k, isOrigin chainTwoToOne (causeIter chainTwoToOne k 2)) ∧
    (isOrigin chainTwoToOne 1 ∧ ∃ k, causeIter chainTwoToOne k 2 = 1) :=
  ⟨(c5_root_cause_amended chainTwoToOne 2).1,
   (c5_root_cause_amended chainTwoToOne 2).2 2 1 (by decide)⟩

/-- C8: on a bearer route the stages run in the fixed order
authentication → context → handler under the outermost exception stage:
when validation succeeds the trace is exactly validate, open registry,
open cursor, run handler, and the handler's response passes through; when
validation raises, no cursor is opened and the handler never runs — the
exception stage alone turns the failure into the error envelope. -/
theorem c8_stage_order (vres : Except PyExn (String × Nat × String)) (hresp : Response) :
    (∀ db uid uname, vres = Except.ok (db, uid, uname) →
      bearerRoute (fun _ => vres) reqBearerT0 (traceHandler (Except.ok hresp)) St.init
        = ({ trace := [Ev.validateToken "t0", Ev.openRegistry db, Ev.openCursor, Ev.handlerRun]
             database := some db, uid := some uid, username := some uname },
           Except.ok hresp)) ∧
    (∀ e, vres = Except.error e →
      (bearerRoute (fun _ => vres) reqBearerT0 (traceHandler (Except.ok hresp)) St.init).1.trace
          = [Ev.validateToken "t0"] ∧
      List.count Ev.openCursor
          (bearerRoute (fun _ => vres) reqBearerT0 (traceHandler (Except.ok hresp)) St.init).1.trace = 0 ∧
      List.count Ev.handlerRun
          (bearerRoute (fun _ => vres) reqBearerT0 (traceHandler (Except.ok hresp)) St.init).1.trace = 0 ∧
      (bearerRoute (fun _ => vres) reqBearerT0 (traceHandler (Except.ok hresp)) St.init).2
        = Except.ok
            { status :=
                if isAccessDenied (rootCause e) || isInvalidSignatureError (rootCause e) then 401 else 400
              body := RespBody.errorObj
                { msg := (rootCause e).msg
                  short := pySplitHead (rootCause e).msg
                  type_ := (rootCause e).kind.name
                  trace := formatExc e } }) := by
  constructor
  · intro db uid uname hv
    subst hv
    rfl
  · intro e hv
    subst hv
    exact ⟨rfl, rfl, rfl, rfl⟩

/-- C8 witness: both branches at concrete inputs — a validation success
yields the full ordered trace, and a validation failure leaves the trace
at the validation attempt with no cursor opened. -/
theorem c8_stage_order_witness :
    bearerRoute (fun _ => Except.ok ("tenant1", 2, "alice")) reqBearerT0
        (traceHandler (Except.ok { status := 200, body := RespBody.text "ok" })) St.init
      = ({ trace := [Ev.validateToken "t0", Ev.openRegistry "tenant1", Ev.openCursor, Ev.handlerRun]
           database := some "tenant1", uid := some 2, username := some "alice" },
         Except.ok { status := 200, body := RespBody.text "ok" }) ∧
    (bearerRoute (fun _ => Except.error (PyExn.base ExnKind.accessDenied "Access Denied")) reqBearerT0
        (traceHandler (Except.ok { status := 200, body := RespBody.text "ok" })) St.init).1.trace
      = [Ev.validateToken "t0"] :=
  ⟨(c8_stage_order (Except.ok ("tenant1", 2, "alice"))
      { status := 200, body := RespBody.text "ok" }).1 "tenant1" 2 "alice" rfl,
   ((c8_stage_order (Except.error (PyExn.base ExnKind.accessDenied "Access Denied"))
      { status := 200, body := RespBody.text "ok" }).2 (PyExn.base ExnKind.accessDenied "Access Denied")
      rfl).1⟩

/-- C9: every failure whose root cause is neither an `AccessDenied` nor
an `InvalidSignatureError` is normalized by the exception stage into a
400 response whose JSON error object carries the message, the short
message, the kind and the trace — and the short message is exactly the
first line of the full message. -/
theorem c9_non_auth_envelope (g : M Response) (s s1 : St) (e : PyExn)
    (hg : g s = (s1, Except.error e))
    (h1 : isAccessDenied (rootCause e) = false)
    (h2 : isInvalidSignatureError (rootCause e) = false) :
    exception_handler g s =
      (s1, Except.ok
        { status := 400
          body := RespBody.errorObj
            { msg := (rootCause e).msg
              short := specFirstLine ((rootCause e).msg)
              type_ := (rootCause e).kind.name
              trace := formatExc e } }) := by
  unfold exception_handler
  simp only [hg, h1, h2, Bool.or_self, Bool.false_eq_true, if_false]
  rw [pySplitHead_eq_specFirstLine]

/-- A stage that raises a two-line `ValueError`. -/
def raiseValueErrorStage : M Response :=
  fun s => (s, Except.error (PyExn.base ExnKind.valueError "bad value\nsecond line"))

/-- C9 witness: the exception stage turns the concrete two-line
`ValueError` into a 400 envelope whose short message is the first line
of the message. -/
theorem c9_non_auth_envelope_witness :
    raiseValueErrorStage St.init
      = (St.init, Except.error (PyExn.base ExnKind.valueError "bad value\nsecond line")) ∧
    isAccessDenied (rootCause (PyExn.base ExnKind.valueError "bad value\nsecond line")) = false ∧
    isInvalidSignatureError (rootCause (PyExn.base ExnKind.valueError "bad value\nsecond line")) = false ∧
    exception_handler raiseValueErrorStage St.init
      = (St.init, Except.ok
          { status := 400
            body := RespBody.errorObj
              { msg := "bad value\nsecond line"
                short := specFirstLine "bad value\nsecond line"
                type_ := "ValueError"
                trace := formatExc (PyExn.base ExnKind.valueError "bad value\nsecond line") } }) :=
  ⟨rfl, by decide, by decide,
   c9_non_auth_envelope raiseValueErrorStage St.init St.init
     (PyExn.base ExnKind.valueError "bad value\nsecond line") rfl (by decide) (by decide)⟩

/-- C10: in `post_table`, under an accepted style and default flag
parameters, an empty body fails with the `Missing body content`
assertion before any engine call (the returned computation is the error,
so no engine event exists), and when the `h` parameter is absent or
empty every engine call the handler makes receives as header exactly the
first line of the request body. -/
theorem c10_header_default_and_body_assert (eng : Engine) (table_name : String)
    (q : PostQuery) (body : String)
    (hstyle : q.style = some "diff" ∨ q.style = some "sql" ∨ q.style = some "result" ∨
      q.style = some "full")
    (hskip : q.skiprows = none) (hins : q.insert = none) (hupd : q.update = none)
    (hdel : q.delete = none) (hexe : q.execute = none) (hcom : q.commit = none) :
    (body = "" →
      post_table_core eng table_name q body
        = Except.error (PyExn.base ExnKind.assertionError "Missing body content")) ∧
    (∀ evs r, post_table_core eng table_name q body = Except.ok (evs, r) →
      (q.h = none ∨ q.h = some "") →
      ∀ op hd bd, Ev.engineCall op hd bd ∈ evs → hd = specFirstLine body) := by
  have hfalse : pyEvalBool "false" = Except.ok false := by decide
  constructor
  · intro hb
    subst hb
    rcases hstyle with hst | hst | hst | hst <;>
      · unfold post_table_core
        simp [hskip, hins, hupd, hdel, hexe, hcom, hst, Except.bind, Option.getD_none, hfalse]
  · intro evs r hok hh op hd bd hmem
    by_cases hb : body = ""
    · exfalso
      unfold post_table_core at hok
      rcases hstyle with hst | hst | hst | hst <;>
        simp [hskip, hins, hupd, hdel, hexe, hcom, hst, Except.bind, Option.getD_none, hfalse,
          hb] at hok
    · unfold post_table_core at hok
      rcases hstyle with hst | hst | hst | hst <;> rcases hh with hh | hh <;>
        simp [hskip, hins, hupd, hdel, hexe, hcom, hst, hh, Except.bind, Option.getD_none,
          hfalse, hb] at hok <;>
        (obtain ⟨hevs, -⟩ := hok
         subst hevs
         simp at hmem
         obtain ⟨-, h2, -⟩ := hmem
         rw [h2]
         exact pySplitHead_eq_specFirstLine body)

/-- C10 witness: with style `diff`, all parameters at their defaults and
the concrete body `a,b` newline `1,2`, the hypotheses hold; the empty
body would be rejected with `Missing body content`, and the engine call
receives the header `a,b`, the first line of the body. -/
theorem c10_header_default_and_body_assert_witness :
    (queryWithStyle "diff").style = some "diff" ∧
    (queryWithStyle "diff").skiprows = none ∧
    (("" : String) = "" →
      post_table_core constEngine "res_partner" (queryWithStyle "diff") ""
        = Except.error (PyExn.base ExnKind.assertionError "Missing body content")) ∧
    (∀ evs r,
      post_table_core constEngine "res_partner" (queryWithStyle "diff") "a,b\n1,2"
        = Except.ok (evs, r) →
      ((queryWithStyle "diff").h = none ∨ (queryWithStyle "diff").h = some "") →
      ∀ op hd bd, Ev.engineCall op hd bd ∈ evs → hd = specFirstLine "a,b\n1,2") :=
  ⟨rfl, rfl,
   (c10_header_default_and_body_assert constEngine "res_partner" (queryWithStyle "diff") ""
     (Or.inl rfl) rfl rfl rfl rfl rfl rfl).1,
   (c10_header_default_and_body_assert constEngine "res_partner" (queryWithStyle "diff") "a,b\n1,2"
     (Or.inl rfl) rfl rfl rfl rfl rfl rfl).2⟩

end StimulaOdoo

